import Mathlib

/-!
Shallow embedding of the tutoring RAG core (`rag/system.py`,
`rag/identity/checker.py`, `rag/intent/models.py`, `rag/types.py`,
`rag/models.py`) and proofs of the specification claims about it.

External collaborators (the Pinecone vector store, the OpenAI completion,
moderation and embedding services, and the wall clock) are modelled as
oracles carried in an `Env` record; every store interaction is recorded in
an explicit trace of `StoreOp` values so that effect-ordering claims
("no vector query issued", "zero store-write calls", "write-back occurs
exactly once") become statements about that trace.
-/

namespace RagCore

/-- `rag/types.py`: `class MemoryType(Enum)`. -/
inductive MemoryType where
  | LEARNING_INTERACTION
  | SKILL_ASSESSMENT
  | CONTENT_MASTERY
  | LEARNING_PREFERENCE
  | ERROR_PATTERN
  | SUCCESS_MILESTONE
deriving DecidableEq, Repr

/-- The `.value` string of each `MemoryType` member. -/
def MemoryType.value : MemoryType → String
  | .LEARNING_INTERACTION => "learning_interaction"
  | .SKILL_ASSESSMENT => "skill_assessment"
  | .CONTENT_MASTERY => "content_mastery"
  | .LEARNING_PREFERENCE => "learning_preference"
  | .ERROR_PATTERN => "error_pattern"
  | .SUCCESS_MILESTONE => "success_milestone"

/-- `rag/models.py`: `class ConsentLevel(Enum)`. -/
inductive ConsentLevel where
  | FULL_PROFILE
  | LIMITED_ANONYMIZED
  | MINIMAL_PSEUDONYMOUS
deriving DecidableEq, Repr

/-- `rag/models.py`: `@dataclass class Student`.  `data_sharing_scope` is a
dict of named boolean permissions. -/
structure Student where
  student_id : String
  consent_level : ConsentLevel
  session_purpose : Option String := none
  data_sharing_scope : List (String × Bool) := []
deriving DecidableEq, Repr

/-- `rag/intent/models.py`: `class Goal(Enum)`. -/
inductive Goal where
  | SOLVE_SPECIFIC_PROBLEM
  | UNDERSTAND_CONCEPT
  | PREPARE_FOR_TEST
  | EXPLORATION
  | UNKNOWN
deriving DecidableEq, Repr

/-- The `.value` string of each `Goal` member. -/
def Goal.value : Goal → String
  | .SOLVE_SPECIFIC_PROBLEM => "solve_specific_problem"
  | .UNDERSTAND_CONCEPT => "understand_concept"
  | .PREPARE_FOR_TEST => "prepare_for_test"
  | .EXPLORATION => "exploration"
  | .UNKNOWN => "unknown"

/-- `rag/intent/models.py`: `class AffectiveState(Enum)`. -/
inductive AffectiveState where
  | FRUSTRATED
  | CONFUSED
  | CURIOUS
  | CONFIDENT
  | NEUTRAL
deriving DecidableEq, Repr

/-- The `.value` string of each `AffectiveState` member. -/
def AffectiveState.value : AffectiveState → String
  | .FRUSTRATED => "frustrated"
  | .CONFUSED => "confused"
  | .CURIOUS => "curious"
  | .CONFIDENT => "confident"
  | .NEUTRAL => "neutral"

/-- `rag/intent/models.py`: `class RiskFlag(Enum)`. -/
inductive RiskFlag where
  | PII_DETECTED
  | SELF_HARM_CONCERN
  | ACADEMIC_INTEGRITY_CONCERN
  | INAPPROPRIATE_CONTENT
deriving DecidableEq, Repr

/-- `rag/intent/models.py`: `@dataclass class ParsedIntent`. -/
structure ParsedIntent where
  original_text : String
  topic : String := "unknown"
  goal : Goal := .UNKNOWN
  affective_state : AffectiveState := .NEUTRAL
  risk_flags : List RiskFlag := []
deriving DecidableEq, Repr

/-- `rag/types.py`: `@dataclass class LearningContext`.  The Python
`datetime` timestamp is modelled as its ISO-format rendering (a string);
the extra `metadata` dict is a list of string key/value pairs (the code
only ever stores scalar values there, which `sanitize_pinecone_metadata`
keeps). -/
structure LearningContext where
  student_id : String
  subject : String
  topic : String
  difficulty_level : Int
  learning_style : String
  timestamp : String
  content : String
  memory_type : MemoryType
  metadata : List (String × String) := []
  document_title : Option String := none
deriving DecidableEq, Repr

/-- `llama_index.core.vector_stores.FilterOperator` members used by the
core. -/
inductive FilterOperator where
  | EQ
  | NE
  | IN
deriving DecidableEq, Repr

/-- The value slot of a `MetadataFilter`: the code passes strings, ints,
`None` (when an optional `subject` is absent), or lists of either. -/
inductive FilterValue where
  | str (s : String)
  | int (i : Int)
  | null
  | intList (l : List Int)
  | strList (l : List String)
deriving DecidableEq, Repr

/-- `llama_index.core.vector_stores.MetadataFilter`. -/
structure MetadataFilter where
  key : String
  value : FilterValue
  operator : FilterOperator
deriving DecidableEq, Repr

/-- Helper: a Python value that is either a string or `None`, in a filter
value position. -/
def FilterValue.ofOptStr : Option String → FilterValue
  | some s => .str s
  | none => .null

/-- A retrieved node together with its similarity score
(`llama_index.core.schema.NodeWithScore`): the metadata fields the core
reads, the node text, and the (mutable, re-assigned by re-ranking) score.
Scores are modelled as rationals. -/
structure NodeWithScore where
  student_id : Option String := none
  subject : Option String := none
  topic : Option String := none
  difficulty_level : Option Int := none
  memory_type : Option String := none
  timestamp : Option String := none
  document_title : Option String := none
  filename : Option String := none
  text : String := ""
  score : ℚ := 0
deriving DecidableEq, Repr

/-- The document inserted by `store_learning_interaction` after metadata
sanitation: its doc id, text, and the sanitized scalar metadata
(`None`-valued fields such as a missing `document_title` are dropped by
`sanitize_pinecone_metadata`, hence the `Option`). -/
structure StoredRecord where
  doc_id : String
  text : String
  student_id : String
  subject : String
  topic : String
  difficulty_level : Int
  learning_style : String
  memory_type : String
  timestamp : String
  document_title : Option String
  extra : List (String × String)
deriving DecidableEq, Repr

/-- One interaction with the vector store, recorded in order of
occurrence: a similarity query (`VectorIndexRetriever.retrieve`) or a
document insert (`VectorStoreIndex.insert`). -/
inductive StoreOp where
  | queryOp (filters : List MetadataFilter) (query_text : String) (top_k : Nat)
  | insertOp (r : StoredRecord)
deriving DecidableEq, Repr

/-- Whether a store operation is an insert (a write). -/
def StoreOp.isInsert : StoreOp → Bool
  | .insertOp _ => true
  | .queryOp _ _ _ => false

/-- Oracles for the external collaborators: the vector store's similarity
query, the wall clock (at day granularity for recency arithmetic, and as an
ISO string for timestamps), `math.exp (-0.1 * d)` evaluated at an integer
day count, the intent parser's external LLM/moderation calls
(`rag/intent/parser.py: parse_intent`), and the completion service
(`self.llm.complete`). -/
structure Env where
  query : List MetadataFilter → String → Nat → List NodeWithScore
  nowDay : Int
  nowIso : String
  expNeg : Int → ℚ
  parseIntent : String → ParsedIntent
  complete : String → String

/-- The outcome of the optional database lookup inside
`check_identity_and_consent` (`rag/identity/checker.py`): no session was
supplied, the user row was found, the user row was absent, or the lookup
raised (the code catches the exception and logs it). -/
inductive DbLookup where
  | noSession
  | found
  | notFound
  | raised (msg : String)
deriving DecidableEq, Repr

/-- `rag/identity/checker.py`: `check_identity_and_consent`.  When the
database session is present and the user row is found it returns a
full-profile `Student`; in every other case (no session, user absent,
lookup exception) it falls through to the default branch, which also
grants `FULL_PROFILE`. -/
def check_identity_and_consent (db : DbLookup) (student_id : String) : Student :=
  match db with
  | .found =>
      { student_id := student_id
        consent_level := .FULL_PROFILE
        session_purpose := some "personalized_tutoring"
        data_sharing_scope :=
          [("personal_data", true), ("cross_student_patterns", false)] }
  | _ =>
      { student_id := student_id
        consent_level := .FULL_PROFILE
        session_purpose := some "personalized_tutoring"
        data_sharing_scope :=
          [("personal_data", true), ("cross_student_patterns", false)] }

/-- `rag/identity/checker.py`: `check_identity_and_consent_sync` — always
returns a full-profile `Student` for the given identifier. -/
def check_identity_and_consent_sync (student_id : String) : Student :=
  { student_id := student_id
    consent_level := .FULL_PROFILE
    session_purpose := some "personalized_tutoring"
    data_sharing_scope :=
      [("personal_data", true), ("cross_student_patterns", false)] }

/-- Value of a decimal digit character, `none` on a non-digit. -/
def digitVal (c : Char) : Option Nat :=
  if c.isDigit then some (c.toNat - 48) else none

/-- Models the Python standard library call `datetime.fromisoformat`
at day granularity: an ISO timestamp starting with a well-formed
`YYYY-MM-DD` date parses to an integer day number (months and days are
range-checked as `fromisoformat` does); any other string fails, as
`fromisoformat` raises `ValueError`.  The day-number encoding
`372*year + 31*month + day` is injective and monotone over calendar dates,
which is all the day-difference arithmetic downstream observes. -/
def parseIsoDate (s : String) : Option Int :=
  match s.toList with
  | y1 :: y2 :: y3 :: y4 :: '-' :: m1 :: m2 :: '-' :: d1 :: d2 :: _ =>
      match digitVal y1, digitVal y2, digitVal y3, digitVal y4,
            digitVal m1, digitVal m2, digitVal d1, digitVal d2 with
      | some a, some b, some c, some d, some e, some f, some g, some h =>
          let year := 1000 * a + 100 * b + 10 * c + d
          let month := 10 * e + f
          let day := 10 * g + h
          if 1 ≤ month ∧ month ≤ 12 ∧ 1 ≤ day ∧ day ≤ 31 then
            some (372 * (year : Int) + 31 * month + day)
          else none
      | _, _, _, _, _, _, _, _ => none
  | _ => none

/-- Models Python `int()` applied to a float (here a rational): truncation
toward zero. -/
def pyInt (q : ℚ) : Int :=
  if 0 ≤ q then q.floor else q.ceil

/-- `rag/system.py`: `store_learning_interaction`.  Builds the metadata
dict, sanitizes it (`sanitize_pinecone_metadata` drops `None`-valued keys
— here only `document_title` can be `None`), wraps it in a `Document`
whose id is `f"{student_id}_{memory_type.value}_{timestamp}"`, and inserts
it.  Returns the doc id together with the store-op trace. -/
def store_learning_interaction (context : LearningContext) : String × List StoreOp :=
  let r : StoredRecord :=
    { doc_id := context.student_id ++ "_" ++ context.memory_type.value ++ "_"
        ++ context.timestamp
      text := context.content
      student_id := context.student_id
      subject := context.subject
      topic := context.topic
      difficulty_level := context.difficulty_level
      learning_style := context.learning_style
      memory_type := context.memory_type.value
      timestamp := context.timestamp
      document_title := context.document_title
      extra := context.metadata }
  (r.doc_id, [StoreOp.insertOp r])

/-- The timestamp sort key used by `_get_student_current_difficulty`:
`n.metadata.get("timestamp", "")`. -/
def tsKey (n : NodeWithScore) : String :=
  n.timestamp.getD ""

/-- The metadata filters built by `_get_student_current_difficulty`. -/
def difficultyLookupFilters (student_id topic : String) (subject : Option String) :
    List MetadataFilter :=
  [⟨"student_id", .str student_id, .EQ⟩,
   ⟨"topic", .str topic, .EQ⟩,
   ⟨"subject", .ofOptStr subject, .EQ⟩]

/-- `rag/system.py`: `_get_student_current_difficulty`.  Queries the store
with exact-match filters on `student_id`, `topic` and `subject`
(`similarity_top_k=10`, query text `f"interactions about {topic}"`),
returns `default_level` when nothing matches, otherwise sorts the nodes by
their `timestamp` metadata descending (Python `list.sort` is stable) and
returns the most recent node's `difficulty_level` metadata, defaulting to
`default_level` when that key is absent.  The caller may pass `None` for
`subject`, hence the `Option`. -/
def _get_student_current_difficulty (env : Env) (student_id topic : String)
    (subject : Option String) (default_level : Int := 3) : Int × List StoreOp :=
  let filters := difficultyLookupFilters student_id topic subject
  let query_text := "interactions about " ++ topic
  let nodes := env.query filters query_text 10
  let ops := [StoreOp.queryOp filters query_text 10]
  if nodes.isEmpty then
    (default_level, ops)
  else
    let sorted := nodes.mergeSort (fun a b => tsKey b ≤ tsKey a)
    (((sorted.head?).bind (fun n => n.difficulty_level)).getD default_level, ops)

/-- `rag/system.py` line 188: the dynamic difficulty window
`list(range(max(1, d - 1), min(10, d + 1) + 1))`, as a list of integers
(Python `range(a, b)` enumerates `a, a+1, ..., b-1`). -/
def difficultyRange (current_difficulty : Int) : List Int :=
  (List.range (min 10 (current_difficulty + 1) + 1 - max 1 (current_difficulty - 1)).toNat).map
    (fun k : Nat => max 1 (current_difficulty - 1) + (k : Int))

/-- The metadata filters built by `retrieve_student_context` for the
candidate query: exact match on `student_id`, set membership on the
difficulty window, then optionally exact match on `subject` and set
membership on the requested memory types. -/
def candidateFilters (student : Student) (current_difficulty : Int)
    (subject : Option String) (memory_types : Option (List MemoryType)) :
    List MetadataFilter :=
  [⟨"student_id", .str student.student_id, .EQ⟩,
   ⟨"difficulty_level", .intList (difficultyRange current_difficulty), .IN⟩]
  ++ (match subject with
      | some s => [⟨"subject", .str s, .EQ⟩]
      | none => [])
  ++ (match memory_types with
      | some mts => [⟨"memory_type", .strList (mts.map MemoryType.value), .IN⟩]
      | none => [])

/-- `rag/system.py` lines 230–248: the recency re-ranking loop.  A node
whose `timestamp` metadata is missing or falsy (`None` or the empty
string) is skipped; a present, non-empty timestamp is parsed with
`datetime.fromisoformat`, which raises on failure — modelled by the
`Except` error.  Otherwise the node's score is re-assigned to
`recency_alpha * similarity + (1 - recency_alpha) * exp(-0.1 * days_since)`
and the node is kept, in the original retrieval order. -/
def reRank (env : Env) (recency_alpha : ℚ) :
    List NodeWithScore → Except String (List NodeWithScore)
  | [] => .ok []
  | node :: rest =>
      match node.timestamp with
      | none => reRank env recency_alpha rest
      | some ts =>
          if ts = "" then
            reRank env recency_alpha rest
          else
            match parseIsoDate ts with
            | none => .error ("Invalid isoformat string: " ++ ts)
            | some day =>
                let days_since := env.nowDay - day
                let recency_score := env.expNeg days_since
                let combined_score :=
                  recency_alpha * node.score + (1 - recency_alpha) * recency_score
                (reRank env recency_alpha rest).map
                  (fun l => { node with score := combined_score } :: l)

/-- `rag/system.py`: `retrieve_student_context`.  Returns the re-ranked
node list paired with the assessed difficulty (or the error raised by
timestamp parsing), together with the trace of store queries issued. -/
def retrieve_student_context (env : Env) (student : Student)
    (current_topic : String) (subject : Option String := none)
    (memory_types : Option (List MemoryType) := none) (limit : Nat := 10)
    (similarity_threshold : ℚ := 7/10) (recency_alpha : ℚ := 1/2) :
    Except String (List NodeWithScore × Int) × List StoreOp :=
  if student.consent_level = ConsentLevel.MINIMAL_PSEUDONYMOUS then
    let dres :=
      _get_student_current_difficulty env student.student_id current_topic subject
    (.ok ([], dres.1), dres.2)
  else
    let dres :=
      _get_student_current_difficulty env student.student_id current_topic subject
    let current_difficulty := dres.1
    let filters := candidateFilters student current_difficulty subject memory_types
    let retrieval_limit := limit * 2
    let initial_nodes := env.query filters current_topic retrieval_limit
    let ops := dres.2 ++ [StoreOp.queryOp filters current_topic retrieval_limit]
    match reRank env recency_alpha initial_nodes with
    | .error e => (.error e, ops)
    | .ok re_ranked =>
        let sorted := re_ranked.mergeSort (fun a b => b.score ≤ a.score)
        let final_nodes := sorted.filter (fun n => similarity_threshold ≤ n.score)
        (.ok (final_nodes.take limit, current_difficulty), ops)

/-- `rag/system.py`: `update_student_skill_assessment`.  Builds a
`SKILL_ASSESSMENT` learning context whose difficulty is
`int(competency_level * 10)` and stores it.  `now` models
`datetime.now()`. -/
def update_student_skill_assessment (student_id subject skill_area : String)
    (competency_level : ℚ) (assessment_details : String) (now : String) :
    String × List StoreOp :=
  let context : LearningContext :=
    { student_id := student_id
      subject := subject
      topic := skill_area
      difficulty_level := pyInt (competency_level * 10)
      learning_style := "assessment"
      timestamp := now
      content := "Skill assessment for " ++ skill_area ++ ": " ++ assessment_details
        ++ ". Competency level: " ++ toString competency_level
      memory_type := .SKILL_ASSESSMENT
      metadata := [("competency_level", toString competency_level),
                   ("skill_area", skill_area)]
      document_title := some "Skill Assessment Report" }
  store_learning_interaction context

/-- The fixed refusal returned when `ACADEMIC_INTEGRITY_CONCERN` is
flagged (`rag/system.py` line 432). -/
def integrityRefusal : String :=
  "I can help you understand the concepts, but I cannot provide direct answers to assignments or tests. Let\x27s work through a similar example problem."

/-- The fixed privacy-redaction message returned when `PII_DETECTED` is
flagged (`rag/system.py` line 434). -/
def piiRefusal : String :=
  "It looks like you may have shared some personal information. To protect your privacy, please rephrase your question without including any personal details."

/-- The generic refusal returned on any other risk flag
(`rag/system.py` line 435). -/
def genericRefusal : String :=
  "I am unable to process this request. Please try rephrasing your question or ask something else."

/-- The per-node citation title:
`node.metadata.get("document_title") or node.metadata.get("filename", "Unknown Source")`
— a missing or falsy (empty) `document_title` falls back to the
`filename` metadata, defaulting to `"Unknown Source"`. -/
def nodeDocTitle (n : NodeWithScore) : String :=
  match n.document_title with
  | some t => if t = "" then n.filename.getD "Unknown Source" else t
  | none => n.filename.getD "Unknown Source"

/-- The citation-mandate block of the prompt when citation sources
exist. -/
def citeBlockWithSources (citations : List String) : String :=
  "\nYOU MUST CITE THESE SOURCES when using their information:\nAvailable sources: "
  ++ String.intercalate ", " (citations.map (fun title => "[" ++ title ++ "]"))
  ++ "\n\nCITATION RULES (MANDATORY):\n1. When you reference ANY information from the context above, immediately add the citation: [Document Title]\n2. Place citations RIGHT AFTER the relevant sentence or fact\n3. Example: \"The power rule states d/dx[x^n] = n*x^(n-1) [Calculus Chapter 3].\"\n4. If you use information from uploaded documents, you MUST cite them\n5. DO NOT provide answers from general knowledge if uploaded documents contain the answer\n"

/-- The citation-mandate block of the prompt when no citation sources
exist: answer briefly from general knowledge and invite an upload. -/
def citeBlockNoSources : String :=
  "\nNO UPLOADED DOCUMENTS FOUND for this topic.\nYou may provide a brief answer from general knowledge, but tell the student:\n\"I don\x27t have any uploaded study materials about this topic yet. Would you like to upload course materials or notes so I can provide more personalized help?\"\n"

/-- The assembled completion prompt (`rag/system.py` lines 493–533),
modelled at the granularity of its interpolated pieces (surrounding
whitespace of the Python triple-quoted f-string is normalised to single
newlines). -/
def buildPrompt (subject current_question context_text : String)
    (citations : List String) : String :=
  "\nYou are an AI tutor helping a student with " ++ subject
  ++ ".\n\n**Student\x27s Learning Context:**\n"
  ++ (if context_text = "" then "No uploaded documents found for this topic."
      else context_text)
  ++ "\n\n**Student\x27s Question:** \"" ++ current_question
  ++ "\"\n\n**CRITICAL CITATION INSTRUCTIONS:**\n"
  ++ (if citations.isEmpty then citeBlockNoSources
      else citeBlockWithSources citations)
  ++ "\nBased on the context, provide a response that:\n1. Acknowledges their emotional state and goal\n2. "
  ++ (if citations.isEmpty then "Suggests uploading materials for personalized help"
      else "USES the uploaded material WITH CITATIONS in [Document Title] format")
  ++ "\n3. Addresses any previous misconceptions\n4. Provides guidance at an appropriate difficulty level\n\nResponse:\n"

/-- The tail of `generate_personalized_response` after the retrieval
branch (lines 485–572): assemble the prompt, invoke the completion
service once, and write the exchange back as a `LEARNING_INTERACTION`
memory record. -/
def finishResponse (env : Env) (student_id current_question subject parsed_topic : String)
    (intent : ParsedIntent) (assessed_difficulty : Int) (context_text : String)
    (citations : List String) (ops : List StoreOp) :
    Except String String × List StoreOp :=
  let prompt := buildPrompt subject current_question context_text citations
  let response := env.complete prompt
  let write_ops := (store_learning_interaction
    { student_id := student_id
      subject := subject
      topic := parsed_topic
      difficulty_level := assessed_difficulty
      learning_style := "mixed"
      timestamp := env.nowIso
      content := "Q: " ++ current_question ++ "\nA: " ++ response
      memory_type := .LEARNING_INTERACTION
      metadata := [("goal", intent.goal.value),
                   ("affective_state", intent.affective_state.value)]
      document_title := some ("Chat Interaction on " ++ parsed_topic) }).2
  (.ok response, ops ++ write_ops)

/-- `rag/system.py`: `generate_personalized_response`.  Consent check,
intent parsing, pre-retrieval risk gate (fixed refusals, no store
traffic), retrieval keyed to the intent-extracted topic, prompt assembly,
one completion call, and the write-back.  Python's `set` of document
titles is modelled by first-occurrence deduplication (`eraseDups`); the
caller-supplied `topic` argument only appears in a log line in the
source, so the embedding binds it without using it. -/
def generate_personalized_response (env : Env)
    (student_id current_question subject _topic : String)
    (context_limit : Nat := 5) : Except String String × List StoreOp :=
  let student := check_identity_and_consent_sync student_id
  let intent := env.parseIntent current_question
  if intent.risk_flags ≠ [] then
    if RiskFlag.ACADEMIC_INTEGRITY_CONCERN ∈ intent.risk_flags then
      (.ok integrityRefusal, [])
    else if RiskFlag.PII_DETECTED ∈ intent.risk_flags then
      (.ok piiRefusal, [])
    else
      (.ok genericRefusal, [])
  else
    let parsed_topic := intent.topic
    if student.consent_level = ConsentLevel.MINIMAL_PSEUDONYMOUS then
      let dres :=
        _get_student_current_difficulty env student.student_id parsed_topic (some subject)
      let context_text := "No personal learning history available due to consent level."
      finishResponse env student_id current_question subject parsed_topic intent
        dres.1 context_text [] dres.2
    else
      let rres := retrieve_student_context env student parsed_topic (some subject) none
        context_limit (7/10) (1/2)
      match rres.1 with
      | .error e => (.error e, rres.2)
      | .ok res =>
          let student_context := res.1
          let assessed_difficulty := res.2
          let context_parts := student_context.map
            (fun n => "[Source: " ++ nodeDocTitle n ++ "]\n" ++ n.text)
          let context_text := String.intercalate "\n\n" context_parts
          let citations := (student_context.map nodeDocTitle).eraseDups
          finishResponse env student_id current_question subject parsed_topic intent
            assessed_difficulty context_text citations rres.2

/-- The difficulty levels of the records inserted by a trace, in order. -/
def insertedDifficulties (ops : List StoreOp) : List Int :=
  ops.filterMap (fun op =>
    match op with
    | .insertOp r => some r.difficulty_level
    | .queryOp _ _ _ => none)

/-- A concrete environment whose vector store returns no candidates for
any query, with fixed oracles for the clock, the intent parser (no risk
flags, topic "algebra") and the completion service. -/
def emptyStoreEnv : Env :=
  { query := fun _ _ _ => []
    nowDay := 753000
    nowIso := "2024-02-10T00:00:00"
    expNeg := fun _ => 1
    parseIntent := fun t =>
      { original_text := t
        topic := "algebra"
        goal := .UNDERSTAND_CONCEPT
        affective_state := .CURIOUS }
    complete := fun _ => "Sample answer." }

/-- A concrete stored candidate node with a parsable timestamp. -/
def sampleNode : NodeWithScore :=
  { student_id := some "s1"
    subject := some "math"
    topic := some "algebra"
    difficulty_level := some 4
    memory_type := some "learning_interaction"
    timestamp := some "2024-01-01T00:00:00"
    document_title := some "Algebra Notes"
    text := "factoring quadratics"
    score := 9/10 }

/-- A candidate node with no timestamp metadata. -/
def untimestampedNode : NodeWithScore :=
  { text := "no timestamp here", score := 1 }

/-- A candidate node whose timestamp metadata is present but not parsable
as a timestamp. -/
def badTimestampNode : NodeWithScore :=
  { timestamp := some "not-a-timestamp", text := "bad timestamp", score := 1 }

/-- A concrete environment whose vector store returns `sampleNode` for
every query. -/
def oneNodeEnv : Env :=
  { emptyStoreEnv with query := fun _ _ _ => [sampleNode] }

/-- The full-profile student the sync consent gate produces for "s1". -/
def fullStudent : Student := check_identity_and_consent_sync "s1"

/-- `sampleNode` after re-ranking with `recency_alpha = 1/2`, similarity
9/10 and recency score 1: combined score 19/20. -/
def sampleReRanked : NodeWithScore := { sampleNode with score := 19/20 }

/-- A concrete environment whose intent parser reports an academic
integrity concern. -/
def integrityFlagEnv : Env :=
  { emptyStoreEnv with
      parseIntent := fun t =>
        { original_text := t
          risk_flags := [.ACADEMIC_INTEGRITY_CONCERN] } }

/-- A concrete learning context with an in-range difficulty. -/
def sampleContext : LearningContext :=
  { student_id := "s1"
    subject := "math"
    topic := "algebra"
    difficulty_level := 4
    learning_style := "mixed"
    timestamp := "2024-01-01T00:00:00"
    content := "Q: what is factoring\nA: rewriting as a product"
    memory_type := .LEARNING_INTERACTION }

/-! ## Helper lemmas -/

/-- The difficulty lookup issues exactly one store query: the three
exact-match filters, query text `"interactions about {topic}"`,
`top_k = 10`. -/
theorem getDifficulty_trace (env : Env) (sid topic : String)
    (subj : Option String) (dl : Int) :
    (_get_student_current_difficulty env sid topic subj dl).2 =
      [StoreOp.queryOp (difficultyLookupFilters sid topic subj)
        ("interactions about " ++ topic) 10] := by
  unfold _get_student_current_difficulty
  by_cases h : (env.query (difficultyLookupFilters sid topic subj)
      ("interactions about " ++ topic) 10).isEmpty <;> simp [h]

/-- Membership in the integer enumeration `list(range(a, b))`. -/
theorem mem_intRangeList (a b x : Int) :
    x ∈ (List.range (b - a).toNat).map (fun k : Nat => a + (k : Int)) ↔
      a ≤ x ∧ x < b := by
  constructor
  · intro hx
    obtain ⟨k, hk, hkx⟩ := List.mem_map.mp hx
    rw [List.mem_range] at hk
    omega
  · intro hx
    exact List.mem_map.mpr ⟨(x - a).toNat, List.mem_range.mpr (by omega), by omega⟩

/-- Transitivity of the descending-score comparison used by the re-rank
sort. -/
theorem scoreDesc_trans : ∀ (a b c : NodeWithScore),
    (fun a b : NodeWithScore => decide (b.score ≤ a.score)) a b = true →
    (fun a b : NodeWithScore => decide (b.score ≤ a.score)) b c = true →
    (fun a b : NodeWithScore => decide (b.score ≤ a.score)) a c = true := by
  intro a b c h1 h2
  simp only [decide_eq_true_eq] at h1 h2 ⊢
  exact le_trans h2 h1

/-- Totality of the descending-score comparison used by the re-rank
sort. -/
theorem scoreDesc_total : ∀ (a b : NodeWithScore),
    ((fun a b : NodeWithScore => decide (b.score ≤ a.score)) a b ||
     (fun a b : NodeWithScore => decide (b.score ≤ a.score)) b a) = true := by
  intro a b
  simpa using le_total b.score a.score

theorem mergeSort_filter_score (l : List NodeWithScore) (s : ℚ) :
    (l.mergeSort (fun a b => b.score ≤ a.score)).filter (fun n => n.score = s) =
      l.filter (fun n => n.score = s) := by
  have hpw : (l.filter (fun n => n.score = s)).Pairwise
      (fun a b : NodeWithScore => (decide (b.score ≤ a.score)) = true) := by
    apply List.pairwise_of_forall_mem_list
    intro a ha b hb
    have ha' := (List.mem_filter.mp ha).2
    have hb' := (List.mem_filter.mp hb).2
    simp only [decide_eq_true_eq] at ha' hb' ⊢
    rw [ha', hb']
  have h1 : List.Sublist (l.filter (fun n => n.score = s))
      (l.mergeSort (fun a b => b.score ≤ a.score)) :=
    List.sublist_mergeSort scoreDesc_trans scoreDesc_total hpw (List.filter_sublist l)
  have h2 : (l.filter (fun n => n.score = s)).filter (fun n => n.score = s) =
      l.filter (fun n => n.score = s) := by
    simp [List.filter_filter]
  have h3 : List.Sublist (l.filter (fun n => n.score = s))
      ((l.mergeSort (fun a b => b.score ≤ a.score)).filter (fun n => n.score = s)) := by
    have := h1.filter (fun n => n.score = s)
    rwa [h2] at this
  have hlen : ((l.mergeSort (fun a b => b.score ≤ a.score)).filter
      (fun n => n.score = s)).length = (l.filter (fun n => n.score = s)).length := by
    rw [← List.countP_eq_length_filter, ← List.countP_eq_length_filter]
    exact (List.mergeSort_perm l (fun a b => b.score ≤ a.score)).countP_eq _
  exact (h3.eq_of_length hlen.symm).symm

theorem retrieve_ok_cases (env : Env) (student : Student) (current_topic : String)
    (subject : Option String) (memory_types : Option (List MemoryType)) (limit : Nat)
    (similarity_threshold recency_alpha : ℚ) (nodes : List NodeWithScore) (d : Int)
    (h : (retrieve_student_context env student current_topic subject memory_types limit
        similarity_threshold recency_alpha).1 = .ok (nodes, d)) :
    nodes = [] ∨
    ∃ rr, reRank env recency_alpha (env.query (candidateFilters student
          (_get_student_current_difficulty env student.student_id current_topic subject).1
          subject memory_types) current_topic (limit * 2)) = .ok rr ∧
      nodes = ((rr.mergeSort (fun a b => b.score ≤ a.score)).filter
          (fun n => similarity_threshold ≤ n.score)).take limit := by
  unfold retrieve_student_context at h
  by_cases hc : student.consent_level = ConsentLevel.MINIMAL_PSEUDONYMOUS
  · simp only [hc, if_true, reduceIte] at h
    left
    exact ((Prod.mk.injEq _ _ _ _).mp ((Except.ok.injEq _ _).mp h)).1.symm
  · simp only [hc, if_false, reduceIte] at h
    cases hR : reRank env recency_alpha (env.query (candidateFilters student
        (_get_student_current_difficulty env student.student_id current_topic subject).1
        subject memory_types) current_topic (limit * 2)) with
    | error e =>
        rw [hR] at h
        simp at h
    | ok rr =>
        rw [hR] at h
        simp only [Except.ok.injEq, Prod.mk.injEq] at h
        exact Or.inr ⟨rr, rfl, h.1.symm⟩

/-- The head of a list merge-sorted descending by a key is a member that
maximises the key. -/
theorem head_mergeSortDesc_max {α β : Type} [LinearOrder β] (key : α → β)
    (l : List α) (hl : l ≠ []) :
    ∃ n, (l.mergeSort (fun a b => key b ≤ key a)).head? = some n ∧ n ∈ l ∧
      ∀ m ∈ l, key m ≤ key n := by
  have hperm := List.mergeSort_perm l (fun a b => key b ≤ key a)
  cases hs : l.mergeSort (fun a b => key b ≤ key a) with
  | nil =>
      rw [hs] at hperm
      exact absurd hperm.symm.eq_nil hl
  | cons n tail =>
      have hsorted : (l.mergeSort (fun a b => key b ≤ key a)).Pairwise
          (fun a b => (decide (key b ≤ key a)) = true) := by
        apply List.sorted_mergeSort
        · intro a b c h1 h2
          simp only [decide_eq_true_eq] at h1 h2 ⊢
          exact le_trans h2 h1
        · intro a b
          simpa using le_total (key b) (key a)
      rw [hs] at hsorted hperm
      refine ⟨n, rfl, hperm.mem_iff.mp (List.mem_cons_self n tail), ?_⟩
      intro m hm
      rcases List.mem_cons.mp (hperm.mem_iff.mpr hm) with rfl | hm'
      · exact le_refl _
      · exact of_decide_eq_true (List.rel_of_pairwise_cons hsorted hm')

/-! ## Claims -/

/-- C5: for every difficulty value d in [1,10], the difficulty window is
exactly the inclusive integer interval [max(1, d-1), min(10, d+1)]; in
particular d=1 yields \x7b1,2\x7d and d=10 yields \x7b9,10\x7d. -/
theorem difficulty_window_correct (d : Int) (h1 : 1 ≤ d) (h2 : d ≤ 10) :
    (∀ x : Int, x ∈ difficultyRange d ↔ max 1 (d - 1) ≤ x ∧ x ≤ min 10 (d + 1)) ∧
    difficultyRange 1 = [1, 2] ∧ difficultyRange 10 = [9, 10] := by
  refine ⟨fun x => ?_, by decide, by decide⟩
  unfold difficultyRange
  rw [mem_intRangeList (max 1 (d - 1)) (min 10 (d + 1) + 1) x]
  constructor <;> (intro h; exact ⟨h.1, by omega⟩)

/-- Witness for C5 at the concrete difficulty d = 5. -/
theorem difficulty_window_correct_witness :
    ((1 : Int) ≤ 5 ∧ (5 : Int) ≤ 10) ∧
    difficultyRange 1 = [1, 2] ∧ difficultyRange 10 = [9, 10] :=
  ⟨⟨by norm_num, by norm_num⟩,
   (difficulty_window_correct 5 (by norm_num) (by norm_num)).2⟩

/-- C3 counterexample: at the concrete identifier "student-1", both the
session-free sync gate (no consent record available) and the async gate
under a failing or record-less backing store return the most permissive
level `FULL_PROFILE` — not `MINIMAL_PSEUDONYMOUS` and not an error — so
the gate silently over-grants, contradicting the claim. -/
theorem consent_gate_most_restrictive_cex :
    (check_identity_and_consent_sync "student-1").consent_level = ConsentLevel.FULL_PROFILE ∧
    (check_identity_and_consent (.raised "identity lookup unreachable")
      "student-1").consent_level = ConsentLevel.FULL_PROFILE ∧
    (check_identity_and_consent .notFound "student-1").consent_level = ConsentLevel.FULL_PROFILE ∧
    ConsentLevel.FULL_PROFILE ≠ ConsentLevel.MINIMAL_PSEUDONYMOUS :=
  ⟨rfl, rfl, rfl, by decide⟩

/-- C3 (amended): for every student_id and every outcome of the backing
store lookup — including a lookup failure and a missing consent record —
the consent gate never raises and always returns the most permissive
level `FULL_PROFILE`; it never falls back to `MINIMAL_PSEUDONYMOUS`. -/
theorem consent_gate_always_full_profile (db : DbLookup) (student_id : String) :
    (check_identity_and_consent db student_id).consent_level = ConsentLevel.FULL_PROFILE ∧
    (check_identity_and_consent_sync student_id).consent_level = ConsentLevel.FULL_PROFILE := by
  cases db <;> exact ⟨rfl, rfl⟩

/-- C10: the caller-supplied topic argument of
generate_personalized_response is never used after intent parsing — two
invocations differing only in that argument produce the identical result
text and the identical store-operation trace (hence identical retrieval
filters, prompt and written-back record). -/
theorem caller_topic_never_used (env : Env)
    (student_id current_question subject topic1 topic2 : String)
    (context_limit : Nat) :
    generate_personalized_response env student_id current_question subject topic1
        context_limit =
      generate_personalized_response env student_id current_question subject topic2
        context_limit :=
  rfl

/-- C2: a non-empty risk_flags set short-circuits the orchestrator before
any retrieval or write-back — the store-operation trace is empty — and
when ACADEMIC_INTEGRITY_CONCERN is among the flags the result is exactly
the fixed refusal-and-redirect string. -/
theorem risk_flags_short_circuit (env : Env) (student_id question subject topic : String)
    (context_limit : Nat) (h : (env.parseIntent question).risk_flags ≠ []) :
    (generate_personalized_response env student_id question subject topic
        context_limit).2 = [] ∧
    (RiskFlag.ACADEMIC_INTEGRITY_CONCERN ∈ (env.parseIntent question).risk_flags →
      (generate_personalized_response env student_id question subject topic
          context_limit).1 = .ok integrityRefusal) := by
  by_cases hAI :
      RiskFlag.ACADEMIC_INTEGRITY_CONCERN ∈ (env.parseIntent question).risk_flags <;>
    by_cases hPII : RiskFlag.PII_DETECTED ∈ (env.parseIntent question).risk_flags <;>
      simp [generate_personalized_response, h, hAI, hPII]

/-- Witness for C2: a concrete environment whose classifier flags an
academic integrity concern — zero store operations, fixed refusal. -/
theorem risk_flags_short_circuit_witness :
    (integrityFlagEnv.parseIntent "solve my exam for me").risk_flags ≠ [] ∧
    (generate_personalized_response integrityFlagEnv "s1" "solve my exam for me"
        "math" "algebra" 5).2 = [] ∧
    (generate_personalized_response integrityFlagEnv "s1" "solve my exam for me"
        "math" "algebra" 5).1 = .ok integrityRefusal := by
  have h := risk_flags_short_circuit integrityFlagEnv "s1" "solve my exam for me"
    "math" "algebra" 5 (by decide)
  exact ⟨by decide, h.1, h.2 (by decide)⟩

/-- C1: for a student whose consent level is minimal_pseudonymous,
retrieve_student_context returns the empty record list together with the
standalone difficulty estimate, and the only store query issued is the
difficulty lookup (exact-match filters, top_k 10) — no candidate vector
query, regardless of the store contents. -/
theorem minimal_consent_empty_retrieval (env : Env) (student : Student)
    (current_topic : String) (subject : Option String)
    (memory_types : Option (List MemoryType)) (limit : Nat)
    (similarity_threshold recency_alpha : ℚ)
    (h : student.consent_level = ConsentLevel.MINIMAL_PSEUDONYMOUS) :
    retrieve_student_context env student current_topic subject memory_types limit
        similarity_threshold recency_alpha =
      (.ok ([], (_get_student_current_difficulty env student.student_id
          current_topic subject).1),
       [StoreOp.queryOp (difficultyLookupFilters student.student_id current_topic subject)
         ("interactions about " ++ current_topic) 10]) := by
  simp [retrieve_student_context, h, getDifficulty_trace]

/-- Witness for C1: a store that does hold a matching record still yields
an empty record list under minimal consent, paired with that record's
difficulty 4; only the difficulty query is issued. -/
theorem minimal_consent_empty_retrieval_witness :
    (Student.mk "s1" .MINIMAL_PSEUDONYMOUS none []).consent_level =
      ConsentLevel.MINIMAL_PSEUDONYMOUS ∧
    retrieve_student_context oneNodeEnv (Student.mk "s1" .MINIMAL_PSEUDONYMOUS none [])
        "algebra" (some "math") none 10 (7/10) (1/2) =
      (.ok ([], (_get_student_current_difficulty oneNodeEnv "s1" "algebra"
          (some "math")).1),
       [StoreOp.queryOp (difficultyLookupFilters "s1" "algebra" (some "math"))
         ("interactions about " ++ "algebra") 10]) ∧
    (_get_student_current_difficulty oneNodeEnv "s1" "algebra" (some "math")).1 = 4 :=
  ⟨rfl,
   minimal_consent_empty_retrieval oneNodeEnv (Student.mk "s1" .MINIMAL_PSEUDONYMOUS none [])
     "algebra" (some "math") none 10 (7/10) (1/2) rfl,
   by simp [_get_student_current_difficulty, oneNodeEnv, emptyStoreEnv, sampleNode]⟩

/-- C4: whenever retrieve_student_context succeeds, the returned record
list is sorted in monotonically non-increasing order of combined score,
contains no record below the similarity threshold, has at most `limit`
elements, and ties keep the original retrieval order: for every score
value, the tied records appear as an in-order sublist of the re-ranked
candidate list. -/
theorem reranked_output_properties (env : Env) (student : Student)
    (current_topic : String) (subject : Option String)
    (memory_types : Option (List MemoryType)) (limit : Nat)
    (similarity_threshold recency_alpha : ℚ) (nodes : List NodeWithScore) (d : Int)
    (h : (retrieve_student_context env student current_topic subject memory_types limit
        similarity_threshold recency_alpha).1 = .ok (nodes, d)) :
    nodes.Pairwise (fun a b => b.score ≤ a.score) ∧
    (∀ n ∈ nodes, similarity_threshold ≤ n.score) ∧
    nodes.length ≤ limit ∧
    (∀ rr, reRank env recency_alpha (env.query (candidateFilters student
        (_get_student_current_difficulty env student.student_id current_topic subject).1
        subject memory_types) current_topic (limit * 2)) = .ok rr →
      ∀ s : ℚ, List.Sublist (nodes.filter (fun n => n.score = s))
        (rr.filter (fun n => n.score = s))) := by
  rcases retrieve_ok_cases env student current_topic subject memory_types limit
      similarity_threshold recency_alpha nodes d h with rfl | ⟨rr0, hR, hnodes⟩
  · exact ⟨List.Pairwise.nil, by simp, by simp, fun rr _ s => by simp⟩
  · subst hnodes
    have hsorted : (rr0.mergeSort (fun a b => b.score ≤ a.score)).Pairwise
        (fun a b : NodeWithScore => b.score ≤ a.score) := by
      have := List.sorted_mergeSort scoreDesc_trans scoreDesc_total rr0
      exact this.imp (fun hab => of_decide_eq_true hab)
    refine ⟨?_, ?_, ?_, ?_⟩
    · exact ((hsorted.filter _).take)
    · intro n hn
      have hn' : n ∈ (rr0.mergeSort (fun a b => b.score ≤ a.score)).filter
          (fun n => similarity_threshold ≤ n.score) :=
        (List.take_sublist _ _).subset hn
      exact of_decide_eq_true (List.mem_filter.mp hn').2
    · exact List.length_take_le _ _
    · intro rr hrr s
      rw [hR] at hrr
      cases hrr
      have s1 := (List.take_sublist limit
        ((rr0.mergeSort (fun a b => b.score ≤ a.score)).filter
          (fun n => similarity_threshold ≤ n.score))).filter (fun n => decide (n.score = s))
      have s2 := (List.filter_sublist
        (rr0.mergeSort (fun a b => b.score ≤ a.score))
          (p := fun n => decide (similarity_threshold ≤ n.score))).filter
        (fun n => decide (n.score = s))
      have s3 := mergeSort_filter_score rr0 s
      rw [s3] at s2
      exact s1.trans s2

/-- Witness for C4 at a concrete one-candidate store: the single
candidate survives with combined score 19/20 and all ranking properties
hold. -/
theorem reranked_output_properties_witness :
    (retrieve_student_context oneNodeEnv fullStudent "algebra" (some "math") none 10
        (7/10) (1/2)).1 = .ok ([sampleReRanked], 4) ∧
    [sampleReRanked].Pairwise (fun a b : NodeWithScore => b.score ≤ a.score) ∧
    (7 : ℚ)/10 ≤ sampleReRanked.score ∧
    [sampleReRanked].length ≤ 10 := by
  have hpd : parseIsoDate "2024-01-01T00:00:00" = some 752960 := by decide
  have hsc : (2⁻¹ * (9 / 10) + (1 - 2⁻¹) : ℚ) = 19/20 := by norm_num
  have hge : ((7:ℚ)/10 ≤ 19/20) := by norm_num
  have hok : (retrieve_student_context oneNodeEnv fullStudent "algebra" (some "math")
      none 10 (7/10) (1/2)).1 = .ok ([sampleReRanked], 4) := by
    simp +decide [retrieve_student_context, fullStudent, check_identity_and_consent_sync,
      oneNodeEnv, emptyStoreEnv, _get_student_current_difficulty, reRank, sampleNode,
      sampleReRanked, hpd, hsc, hge, Except.map, List.mergeSort_singleton,
      List.filter_cons, List.filter_nil]
  have H := reranked_output_properties oneNodeEnv fullStudent "algebra" (some "math")
    none 10 (7/10) (1/2) [sampleReRanked] 4 hok
  exact ⟨hok, H.1, H.2.1 sampleReRanked (by simp), H.2.2.1⟩

/-- C8: the difficulty estimator issues exactly one store query with
exact-match filters on student_id, topic and subject and top_k 10; with no
matching record it returns the default, and otherwise it returns the
difficulty_level of a most recent (timestamp-maximal) candidate,
defaulting when that candidate has no difficulty_level metadata. -/
theorem current_difficulty_estimator (env : Env) (student_id topic : String)
    (subject : Option String) (default_level : Int) :
    (_get_student_current_difficulty env student_id topic subject default_level).2 =
      [StoreOp.queryOp
        [⟨"student_id", .str student_id, .EQ⟩,
         ⟨"topic", .str topic, .EQ⟩,
         ⟨"subject", .ofOptStr subject, .EQ⟩]
        ("interactions about " ++ topic) 10] ∧
    (env.query (difficultyLookupFilters student_id topic subject)
        ("interactions about " ++ topic) 10 = [] →
      (_get_student_current_difficulty env student_id topic subject default_level).1 =
        default_level) ∧
    (env.query (difficultyLookupFilters student_id topic subject)
        ("interactions about " ++ topic) 10 ≠ [] →
      ∃ n ∈ env.query (difficultyLookupFilters student_id topic subject)
          ("interactions about " ++ topic) 10,
        (∀ m ∈ env.query (difficultyLookupFilters student_id topic subject)
            ("interactions about " ++ topic) 10, tsKey m ≤ tsKey n) ∧
        (_get_student_current_difficulty env student_id topic subject default_level).1 =
          n.difficulty_level.getD default_level) := by
  refine ⟨getDifficulty_trace env student_id topic subject default_level, ?_, ?_⟩
  · intro hq
    unfold _get_student_current_difficulty
    simp [hq]
  · intro hq
    obtain ⟨n, hhead, hmem, hmax⟩ := head_mergeSortDesc_max tsKey
      (env.query (difficultyLookupFilters student_id topic subject)
        ("interactions about " ++ topic) 10) hq
    refine ⟨n, hmem, hmax, ?_⟩
    have hni : (env.query (difficultyLookupFilters student_id topic subject)
        ("interactions about " ++ topic) 10).isEmpty = false := by
      simpa [List.isEmpty_iff] using hq
    unfold _get_student_current_difficulty
    simp only [hni, Bool.false_eq_true, if_false, hhead]
    rfl

/-- Witness for C8: empty difficulty history with default 3 returns 3,
issuing the single exact-match query. -/
theorem current_difficulty_estimator_witness :
    (_get_student_current_difficulty emptyStoreEnv "s1" "algebra" (some "math") 3).1 = 3 ∧
    (_get_student_current_difficulty emptyStoreEnv "s1" "algebra" (some "math") 3).2 =
      [StoreOp.queryOp
        [⟨"student_id", .str "s1", .EQ⟩, ⟨"topic", .str "algebra", .EQ⟩,
         ⟨"subject", .ofOptStr (some "math"), .EQ⟩]
        ("interactions about " ++ "algebra") 10] := by
  have H := current_difficulty_estimator emptyStoreEnv "s1" "algebra" (some "math") 3
  exact ⟨H.2.1 rfl, H.1⟩

/-- C9 counterexample: update_student_skill_assessment with
competency_level 0 stores a record whose difficulty_level is 0, outside
[1,10] — the store operations do not enforce the invariant. -/
theorem difficulty_invariant_cex :
    insertedDifficulties (update_student_skill_assessment "s1" "math" "algebra" 0
      "assessment details" "2024-01-01T00:00:00").2 = [0] ∧
    ¬ (1 ≤ (0 : Int)) := by
  constructor
  · norm_num [insertedDifficulties, update_student_skill_assessment,
      store_learning_interaction, pyInt, Rat.floor, List.filterMap_cons,
      List.filterMap_nil]
  · decide

/-- C9 (amended): the store operations pass difficulty through
unvalidated — store_learning_interaction stores exactly the supplied
difficulty_level and update_student_skill_assessment stores
int(competency_level * 10) — so the stored difficulty_level lies in
[1,10] exactly when the input does. -/
theorem difficulty_passthrough_unvalidated :
    (∀ c : LearningContext,
      insertedDifficulties (store_learning_interaction c).2 = [c.difficulty_level]) ∧
    (∀ (sid subj skill : String) (comp : ℚ) (details now : String),
      insertedDifficulties (update_student_skill_assessment sid subj skill comp
        details now).2 = [pyInt (comp * 10)]) ∧
    (∀ c : LearningContext, 1 ≤ c.difficulty_level → c.difficulty_level ≤ 10 →
      ∀ d ∈ insertedDifficulties (store_learning_interaction c).2, 1 ≤ d ∧ d ≤ 10) := by
  refine ⟨fun c => rfl, fun sid subj skill comp details now => rfl, ?_⟩
  intro c h1 h2 d hd
  simp only [insertedDifficulties, store_learning_interaction, List.filterMap_cons,
    List.filterMap_nil] at hd
  simp at hd
  subst hd
  exact ⟨h1, h2⟩

/-- Witness for C9 amended theorem: an in-range context stores difficulty 4,
which lies in [1,10]. -/
theorem difficulty_passthrough_unvalidated_witness :
    insertedDifficulties (store_learning_interaction sampleContext).2 = [4] ∧
    (1 ≤ (4 : Int) ∧ (4 : Int) ≤ 10) := by
  have H := difficulty_passthrough_unvalidated
  have h1 : insertedDifficulties (store_learning_interaction sampleContext).2 = [4] :=
    H.1 sampleContext
  exact ⟨h1, H.2.2 sampleContext (by decide) (by decide) 4 (by rw [h1]; simp)⟩

/-- Every node surviving re-ranking carries a non-empty, parsable
timestamp. -/
theorem reRank_ok_parsable (env : Env) (recency_alpha : ℚ) :
    ∀ (l rr : List NodeWithScore), reRank env recency_alpha l = .ok rr →
      ∀ n ∈ rr, ∃ ts, n.timestamp = some ts ∧ ts ≠ "" ∧ (parseIsoDate ts).isSome := by
  intro l
  induction l with
  | nil =>
      intro rr h n hn
      simp only [reRank] at h
      cases h
      simp at hn
  | cons node rest ih =>
      intro rr h n hn
      rcases hts : node.timestamp with _ | ts
      · simp only [reRank, hts] at h
        exact ih rr h n hn
      · by_cases hempty : ts = ""
        · simp only [reRank, hts, hempty, if_true, reduceIte] at h
          exact ih rr h n hn
        · simp only [reRank, hts, hempty, if_false, reduceIte] at h
          cases hpd : parseIsoDate ts with
          | none =>
              rw [hpd] at h
              cases h
          | some day =>
              rw [hpd] at h
              cases hrec : reRank env recency_alpha rest with
              | error e => rw [hrec] at h; simp [Except.map] at h
              | ok l2 =>
                  rw [hrec] at h
                  simp only [Except.map, Except.ok.injEq] at h
                  subst h
                  rcases List.mem_cons.mp hn with rfl | hn2
                  · exact ⟨ts, rfl, hempty, by simp [hpd]⟩
                  · exact ih l2 hrec n hn2

/-- C6 counterexample: a candidate whose timestamp metadata is present
but not parsable makes the re-ranking step fail with an error (the claim
says the step does not fail on such a record). -/
theorem unparsable_timestamp_cex :
    badTimestampNode.timestamp = some "not-a-timestamp" ∧
    parseIsoDate "not-a-timestamp" = none ∧
    reRank emptyStoreEnv (1/2) [badTimestampNode] =
      .error ("Invalid isoformat string: " ++ "not-a-timestamp") := by
  have hpd : parseIsoDate "not-a-timestamp" = none := by decide
  have hne2 : ¬("not-a-timestamp" = "") := by decide
  refine ⟨rfl, hpd, ?_⟩
  simp only [reRank, badTimestampNode, hpd, reduceIte]
  rw [if_neg hne2]

/-- C6 (amended): a candidate with absent or empty timestamp metadata is
silently dropped by re-ranking (never present in output, no failure); a
candidate whose timestamp is present but unparsable is also never present
in output, but because the re-ranking step raises an error on it; every
record in a successful re-ranked output has a parsable timestamp. -/
theorem untimestamped_records_dropped :
    (∀ (env : Env) (recency_alpha : ℚ) (node : NodeWithScore)
        (rest : List NodeWithScore),
      node.timestamp = none ∨ node.timestamp = some "" →
      reRank env recency_alpha (node :: rest) = reRank env recency_alpha rest) ∧
    (∀ (env : Env) (recency_alpha : ℚ) (node : NodeWithScore)
        (rest : List NodeWithScore) (ts : String),
      node.timestamp = some ts → ts ≠ "" → parseIsoDate ts = none →
      reRank env recency_alpha (node :: rest) =
        .error ("Invalid isoformat string: " ++ ts)) ∧
    (∀ (env : Env) (student : Student) (current_topic : String)
        (subject : Option String) (memory_types : Option (List MemoryType))
        (limit : Nat) (similarity_threshold recency_alpha : ℚ)
        (nodes : List NodeWithScore) (d : Int),
      (retrieve_student_context env student current_topic subject memory_types limit
          similarity_threshold recency_alpha).1 = .ok (nodes, d) →
      ∀ n ∈ nodes, ∃ ts, n.timestamp = some ts ∧ ts ≠ "" ∧
        (parseIsoDate ts).isSome) := by
  refine ⟨?_, ?_, ?_⟩
  · intro env recency_alpha node rest h
    rcases h with h | h
    · simp only [reRank, h]
    · simp only [reRank, h, if_true, reduceIte]
  · intro env recency_alpha node rest ts hts hne hpd
    simp only [reRank, hts, hne, if_false, reduceIte, hpd]
  · intro env student current_topic subject memory_types limit θ α nodes d h n hn
    rcases retrieve_ok_cases env student current_topic subject memory_types limit
        θ α nodes d h with rfl | ⟨rr0, hR, hnodes⟩
    · simp at hn
    · subst hnodes
      have hn1 : n ∈ (rr0.mergeSort (fun a b => b.score ≤ a.score)).filter
          (fun n => θ ≤ n.score) := (List.take_sublist _ _).subset hn
      have hn2 : n ∈ rr0 :=
        List.mem_mergeSort.mp (List.mem_filter.mp hn1).1
      exact reRank_ok_parsable env α _ rr0 hR n hn2

/-- Witness for C6 amended theorem: a node with no timestamp is dropped and
re-ranking succeeds with an empty output. -/
theorem untimestamped_records_dropped_witness :
    untimestampedNode.timestamp = none ∧
    reRank emptyStoreEnv (1/2) [untimestampedNode] = reRank emptyStoreEnv (1/2) [] ∧
    reRank emptyStoreEnv (1/2) [] = .ok [] := by
  exact ⟨rfl,
    untimestamped_records_dropped.1 emptyStoreEnv (1/2) untimestampedNode [] (Or.inl rfl),
    rfl⟩

/-- The retrieval pipeline never writes: every store operation in its
trace is a query. -/
theorem retrieve_trace_no_insert (env : Env) (student : Student)
    (current_topic : String) (subject : Option String)
    (memory_types : Option (List MemoryType)) (limit : Nat)
    (similarity_threshold recency_alpha : ℚ) :
    ∀ op ∈ (retrieve_student_context env student current_topic subject memory_types
        limit similarity_threshold recency_alpha).2, op.isInsert = false := by
  intro op hop
  unfold retrieve_student_context at hop
  by_cases hc : student.consent_level = ConsentLevel.MINIMAL_PSEUDONYMOUS
  · simp only [hc, reduceIte, getDifficulty_trace] at hop
    simp only [List.mem_singleton] at hop
    subst hop
    rfl
  · simp only [hc, reduceIte] at hop
    cases hR : reRank env recency_alpha (env.query (candidateFilters student
        (_get_student_current_difficulty env student.student_id current_topic subject).1
        subject memory_types) current_topic (limit * 2)) with
    | error e =>
        rw [hR] at hop
        simp only [getDifficulty_trace, List.mem_append, List.mem_singleton] at hop
        rcases hop with hop | hop <;> (subst hop; rfl)
    | ok rr =>
        rw [hR] at hop
        simp only [getDifficulty_trace, List.mem_append, List.mem_singleton] at hop
        rcases hop with hop | hop <;> (subst hop; rfl)

/-- C7: when no risk flag fires and retrieval succeeds, write-back occurs
exactly once: the trace is the retrieval queries followed by a single
insert whose record is a learning_interaction holding the question and
answer text, tagged with the parsed topic, goal and affect metadata and a
generated title, with difficulty_level equal to the assessed difficulty
returned by retrieval — even when retrieval returned zero records. -/
theorem write_back_exactly_once (env : Env)
    (student_id current_question subject topic : String) (context_limit : Nat)
    (nodes : List NodeWithScore) (assessed : Int)
    (hflags : (env.parseIntent current_question).risk_flags = [])
    (hret : (retrieve_student_context env (check_identity_and_consent_sync student_id)
        (env.parseIntent current_question).topic (some subject) none context_limit
        (7/10) (1/2)).1 = .ok (nodes, assessed)) :
    ∃ r : StoredRecord,
      (generate_personalized_response env student_id current_question subject topic
          context_limit).2 =
        (retrieve_student_context env (check_identity_and_consent_sync student_id)
          (env.parseIntent current_question).topic (some subject) none context_limit
          (7/10) (1/2)).2 ++ [StoreOp.insertOp r] ∧
      ((generate_personalized_response env student_id current_question subject topic
          context_limit).2.filter StoreOp.isInsert) = [StoreOp.insertOp r] ∧
      r.memory_type = "learning_interaction" ∧
      r.student_id = student_id ∧
      r.subject = subject ∧
      r.topic = (env.parseIntent current_question).topic ∧
      r.difficulty_level = assessed ∧
      r.learning_style = "mixed" ∧
      r.timestamp = env.nowIso ∧
      r.document_title =
        some ("Chat Interaction on " ++ (env.parseIntent current_question).topic) ∧
      r.extra = [("goal", (env.parseIntent current_question).goal.value),
                 ("affective_state", (env.parseIntent current_question).affective_state.value)] ∧
      (∃ answer : String,
        (generate_personalized_response env student_id current_question subject topic
            context_limit).1 = .ok answer ∧
        r.text = "Q: " ++ current_question ++ "\nA: " ++ answer) := by
  have hgen : generate_personalized_response env student_id current_question subject
      topic context_limit =
    finishResponse env student_id current_question subject
      (env.parseIntent current_question).topic (env.parseIntent current_question)
      assessed
      (String.intercalate "\n\n" (nodes.map
        (fun n => "[Source: " ++ nodeDocTitle n ++ "]\n" ++ n.text)))
      ((nodes.map nodeDocTitle).eraseDups)
      (retrieve_student_context env (check_identity_and_consent_sync student_id)
        (env.parseIntent current_question).topic (some subject) none context_limit
        (7/10) (1/2)).2 := by
    have hconsent : (check_identity_and_consent_sync student_id).consent_level =
        ConsentLevel.FULL_PROFILE := rfl
    unfold generate_personalized_response
    simp only [hflags, ne_eq, not_true_eq_false, reduceIte, hconsent, reduceCtorEq,
      hret]
  have hops := retrieve_trace_no_insert env (check_identity_and_consent_sync student_id)
    (env.parseIntent current_question).topic (some subject) none context_limit
    (7/10) (1/2)
  refine ⟨{ doc_id := student_id ++ "_" ++ MemoryType.LEARNING_INTERACTION.value ++ "_" ++ env.nowIso,
            text := "Q: " ++ current_question ++ "\nA: " ++ env.complete (buildPrompt subject current_question (String.intercalate "\n\n" (nodes.map (fun n => "[Source: " ++ nodeDocTitle n ++ "]\n" ++ n.text))) ((nodes.map nodeDocTitle).eraseDups)),
            student_id := student_id,
            subject := subject,
            topic := (env.parseIntent current_question).topic,
            difficulty_level := assessed,
            learning_style := "mixed",
            memory_type := MemoryType.LEARNING_INTERACTION.value,
            timestamp := env.nowIso,
            document_title := some ("Chat Interaction on " ++ (env.parseIntent current_question).topic),
            extra := [("goal", (env.parseIntent current_question).goal.value), ("affective_state", (env.parseIntent current_question).affective_state.value)] },
    ?_, ?_, rfl, rfl, rfl, rfl, rfl, rfl, rfl, rfl, rfl, ?_⟩
  · rw [hgen]
    rfl
  · rw [hgen]
    show ((retrieve_student_context env (check_identity_and_consent_sync student_id)
        (env.parseIntent current_question).topic (some subject) none context_limit
        (7/10) (1/2)).2 ++ [StoreOp.insertOp _]).filter StoreOp.isInsert =
      [StoreOp.insertOp _]
    rw [List.filter_append]
    have hnil : (retrieve_student_context env (check_identity_and_consent_sync student_id)
        (env.parseIntent current_question).topic (some subject) none context_limit
        (7/10) (1/2)).2.filter StoreOp.isInsert = [] := by
      rw [List.filter_eq_nil_iff]
      intro op hop
      simp [hops op hop]
    rw [hnil]
    rfl
  · exact ⟨_, by rw [hgen]; rfl, rfl⟩

/-- Witness for C7: on an empty store (retrieval returns zero records,
assessed difficulty defaults to 3) the orchestrator still performs exactly
one store write. -/
theorem write_back_exactly_once_witness :
    (emptyStoreEnv.parseIntent "explain factoring").risk_flags = [] ∧
    (retrieve_student_context emptyStoreEnv (check_identity_and_consent_sync "s1")
        (emptyStoreEnv.parseIntent "explain factoring").topic (some "math") none 5
        (7/10) (1/2)).1 = .ok ([], 3) ∧
    ((generate_personalized_response emptyStoreEnv "s1" "explain factoring" "math"
        "calculus" 5).2.filter StoreOp.isInsert).length = 1 := by
  have hflags : (emptyStoreEnv.parseIntent "explain factoring").risk_flags = [] := rfl
  have hret : (retrieve_student_context emptyStoreEnv
      (check_identity_and_consent_sync "s1")
      (emptyStoreEnv.parseIntent "explain factoring").topic (some "math") none 5
      (7/10) (1/2)).1 = .ok ([], 3) := by
    simp [retrieve_student_context, check_identity_and_consent_sync, emptyStoreEnv,
      _get_student_current_difficulty, reRank, Except.map, List.mergeSort_nil]
  obtain ⟨r, h1, h2, hrest⟩ := write_back_exactly_once emptyStoreEnv "s1"
    "explain factoring" "math" "calculus" 5 [] 3 hflags hret
  exact ⟨hflags, hret, by rw [h2]; rfl⟩

end RagCore
